import Mathlib

/-!
Shallow embedding of the `send-to-remarkable` Cloudflare Worker.

The embedding covers:
* `src/auth-do.ts` — the `AuthDO` durable object: `checkRegisteredStatus`,
  `getAccessToken`, `register`, `isRegistered`, `destroy`;
* `src/upload-utils.ts` — `uploadFile`;
* `src/workflow.ts` — `RemarkableUploadWorkflow.run`;
* the worker entry file (Hono routes and the inbound-email handler).

Modelling conventions:
* Durable-object storage plus the in-memory token cache form an explicit
  `AuthState` record; each operation returns its result together with the
  post-state, since JavaScript storage writes survive a thrown exception.
* A `fetch` of the upstream token endpoint is modelled by a `NetOutcome`
  parameter: a 200 response with its body text, a non-200 status, or a
  transport failure (the promise rejects).  The code under scrutiny has no
  try/catch around these fetches, so a transport failure propagates; we model
  a propagating exception as `Except.error ()` in the `result` field.
* JWT decoding (`atob` of the middle dot-segment + `JSON.parse`, reading
  `exp`) is an external-library composite; it is abstracted as a decode
  oracle `d : String → Option Int`.  `none` covers both a decode/parse throw
  (caught by the source) and a missing `exp` field (whose `undefined > now`
  comparison is false) — observably identical in the source.
* `refreshCalls` counts the network requests issued to the upstream token
  endpoint during the call (a transport-failed attempt still counts as one
  issued request).
-/

namespace SendToRemarkable

/-- Outcome of one `fetch` against an upstream endpoint: a 200 response with
its body text, a non-200 status code, or a transport failure (the `fetch`
promise rejects; the source has no try/catch around these calls). -/
inductive NetOutcome where
  | ok (body : String)
  | httpError (status : Nat)
  | transportFail
deriving Repr, DecidableEq

/-- State of one `AuthDO` instance: the three durable-storage keys
(`device_id`, `refresh_token`, `access_token`) and the in-memory
`this.access_token` cache. -/
structure AuthState where
  device_id : Option String
  refresh_token : Option String
  stored_access_token : Option String
  access_token : Option String
deriving Repr, DecidableEq

/-- Result of `checkRegisteredStatus`: the returned boolean (or a propagated
exception), the post-state, and the number of refresh requests issued. -/
structure CheckResult where
  result : Except Unit Bool
  state : AuthState
  refreshCalls : Nat
deriving Repr

/-- The fall-through half of `checkRegisteredStatus` (auth-do.ts lines
85-115): read the persisted `refresh_token`; when present, POST to
`/token/json/2/user/new`; on a 200 response with a non-empty body, cache and
persist the new access token and report registered; on a non-200 status or an
empty body fall through; when the fetch transport-fails the exception
propagates (state untouched at that point).  The final fall-through clears
the in-memory cache and reports not registered. -/
def checkRefresh (s : AuthState) (env : NetOutcome) : CheckResult :=
  match s.refresh_token with
  | some _rt =>
    match env with
    | NetOutcome.ok body =>
      if body = "" then
        { result := Except.ok false, state := { s with access_token := none }, refreshCalls := 1 }
      else
        { result := Except.ok true,
          state := { s with access_token := some body, stored_access_token := some body },
          refreshCalls := 1 }
    | NetOutcome.httpError _code =>
      { result := Except.ok false, state := { s with access_token := none }, refreshCalls := 1 }
    | NetOutcome.transportFail =>
      { result := Except.error (), state := s, refreshCalls := 1 }
  | none =>
    { result := Except.ok false, state := { s with access_token := none }, refreshCalls := 0 }

/-- `checkRegisteredStatus` (auth-do.ts lines 59-116): read the persisted
`access_token`; if it decodes and its `exp` is strictly greater than `now`,
cache it in memory and report registered with no network call; otherwise
(expired, undecodable, or absent) fall through to the refresh attempt. -/
def checkRegisteredStatus (d : String → Option Int) (s : AuthState) (now : Int)
    (env : NetOutcome) : CheckResult :=
  match s.stored_access_token with
  | some tok =>
    match d tok with
    | some exp =>
      if exp > now then
        { result := Except.ok true, state := { s with access_token := some tok },
          refreshCalls := 0 }
      else
        checkRefresh s env
    | none => checkRefresh s env
  | none => checkRefresh s env

/-- Result of `getAccessToken`: the returned token-or-null (or a propagated
exception), the post-state, and the number of refresh requests issued. -/
structure TokenResult where
  result : Except Unit (Option String)
  state : AuthState
  refreshCalls : Nat
deriving Repr

/-- The tail of `getAccessToken` (auth-do.ts lines 195-200): call
`checkRegisteredStatus`; when it reports registered return the in-memory
`this.access_token`, otherwise return `null`. -/
def getAccessTokenRefresh (d : String → Option Int) (s : AuthState) (now : Int)
    (env : NetOutcome) : TokenResult :=
  match checkRegisteredStatus d s now env with
  | ⟨Except.error e, st, n⟩ => { result := Except.error e, state := st, refreshCalls := n }
  | ⟨Except.ok true, st, n⟩ =>
    { result := Except.ok st.access_token, state := st, refreshCalls := n }
  | ⟨Except.ok false, st, n⟩ => { result := Except.ok none, state := st, refreshCalls := n }

/-- `getAccessToken` (auth-do.ts lines 180-201): if the in-memory token
decodes with `exp > now`, return it with no network call; otherwise (expired,
undecodable, or absent) fall back to a `checkRegisteredStatus` refresh
cycle. -/
def getAccessToken (d : String → Option Int) (s : AuthState) (now : Int)
    (env : NetOutcome) : TokenResult :=
  match s.access_token with
  | some tok =>
    match d tok with
    | some exp =>
      if exp > now then
        { result := Except.ok (some tok), state := s, refreshCalls := 0 }
      else
        getAccessTokenRefresh d s now env
    | none => getAccessTokenRefresh d s now env
  | none => getAccessTokenRefresh d s now env

/-- `isRegistered` (auth-do.ts lines 206-210): true iff both `device_id` and
`refresh_token` are persisted. -/
def isRegistered (s : AuthState) : Bool :=
  s.device_id.isSome && s.refresh_token.isSome

/-- `destroy` (auth-do.ts lines 234-244): `storage.deleteAll()` plus clearing
the in-memory cache. -/
def destroy (_s : AuthState) : AuthState :=
  { device_id := none, refresh_token := none, stored_access_token := none, access_token := none }

/-- The `RegisterResult | AuthError` union returned by `register`. -/
inductive RegisterOutcome where
  | success (device_id : String)
  | authError (error : String)
deriving Repr, DecidableEq

/-- Result of `register`: the returned union value (or a propagated
exception) and the post-state. -/
structure RegisterCallResult where
  result : Except Unit RegisterOutcome
  state : AuthState
deriving Repr

/-- `register` (auth-do.ts lines 121-175): persist `device_id` first; POST
the link code to `/token/json/2/device/new` (`regEnv`); on a non-200 status
or an empty body return an `AuthError` without touching `refresh_token`; on
success persist the body as `refresh_token` and run `checkRegisteredStatus`
(whose refresh fetch outcome is `refreshEnv`), reporting success only if that
reports registered. -/
def register (d : String → Option Int) (s : AuthState) (_linkCode deviceId : String)
    (regEnv : NetOutcome) (now : Int) (refreshEnv : NetOutcome) : RegisterCallResult :=
  match regEnv with
  | NetOutcome.transportFail =>
    { result := Except.error (), state := { s with device_id := some deviceId } }
  | NetOutcome.httpError code =>
    { result := Except.ok (RegisterOutcome.authError
        ("Failed to register (response code): " ++ toString code)),
      state := { s with device_id := some deviceId } }
  | NetOutcome.ok body =>
    if body = "" then
      { result := Except.ok (RegisterOutcome.authError "Failed to register (no data)"),
        state := { s with device_id := some deviceId } }
    else
      match checkRegisteredStatus d
          { s with device_id := some deviceId, refresh_token := some body } now refreshEnv with
      | ⟨Except.error e, st, _n⟩ => { result := Except.error e, state := st }
      | ⟨Except.ok true, st, _n⟩ =>
        { result := Except.ok (RegisterOutcome.success deviceId), state := st }
      | ⟨Except.ok false, st, _n⟩ =>
        { result := Except.ok (RegisterOutcome.authError
            "Failed to register (not registered after token refresh)"),
          state := st }

/-- Invariant of reachable `AuthDO` states: a persisted access token implies
a persisted refresh token (the only storage write of `access_token` happens
inside the refresh branch, and `destroy` deletes both), and a cached
in-memory token always equals the persisted access token (it is only ever
loaded from storage or written to both places at once). -/
def Inv (s : AuthState) : Prop :=
  (s.stored_access_token = none ∨ s.refresh_token.isSome = true) ∧
  (s.access_token = none ∨ s.access_token = s.stored_access_token)

instance (s : AuthState) : Decidable (Inv s) := by
  unfold Inv
  infer_instance

/-- The state of a fresh `AuthDO` instance: empty storage, empty cache. -/
def initState : AuthState :=
  { device_id := none, refresh_token := none, stored_access_token := none, access_token := none }

lemma inv_initState : Inv initState := by
  constructor <;> exact Or.inl rfl

lemma inv_destroy (s : AuthState) : Inv (destroy s) := by
  constructor <;> exact Or.inl rfl

lemma inv_checkRefresh (s : AuthState) (env : NetOutcome) (h : Inv s) :
    Inv (checkRefresh s env).state := by
  obtain ⟨h1, h2⟩ := h
  unfold checkRefresh
  cases hrt : s.refresh_token with
  | none =>
    refine ⟨?_, Or.inl rfl⟩
    rcases h1 with h1 | h1
    · exact Or.inl h1
    · rw [hrt] at h1; simp at h1
  | some rt =>
    cases env with
    | ok body =>
      by_cases hb : body = ""
      · simp only [if_pos hb]
        exact ⟨Or.inr rfl, Or.inl rfl⟩
      · simp only [if_neg hb]
        exact ⟨Or.inr rfl, Or.inr rfl⟩
    | httpError code => exact ⟨Or.inr rfl, Or.inl rfl⟩
    | transportFail => exact ⟨h1, h2⟩

lemma inv_checkRegisteredStatus (d : String → Option Int) (s : AuthState) (now : Int)
    (env : NetOutcome) (h : Inv s) : Inv (checkRegisteredStatus d s now env).state := by
  unfold checkRegisteredStatus
  cases hsa : s.stored_access_token with
  | none => exact inv_checkRefresh s env h
  | some tok =>
    dsimp only
    cases d tok with
    | none => exact inv_checkRefresh s env h
    | some exp =>
      dsimp only
      by_cases hc : exp > now
      · simp only [if_pos hc]
        refine ⟨?_, Or.inr rfl⟩
        rcases h.1 with h1 | h1
        · rw [hsa] at h1; exact absurd h1 (by simp)
        · exact Or.inr h1
      · simp only [if_neg hc]
        exact inv_checkRefresh s env h

lemma inv_getAccessTokenRefresh (d : String → Option Int) (s : AuthState) (now : Int)
    (env : NetOutcome) (h : Inv s) : Inv (getAccessTokenRefresh d s now env).state := by
  have hcrs := inv_checkRegisteredStatus d s now env h
  unfold getAccessTokenRefresh
  rcases hc : checkRegisteredStatus d s now env with ⟨res, st, n⟩
  rw [hc] at hcrs
  rcases res with e | b
  · exact hcrs
  · cases b <;> exact hcrs

lemma inv_getAccessToken (d : String → Option Int) (s : AuthState) (now : Int)
    (env : NetOutcome) (h : Inv s) : Inv (getAccessToken d s now env).state := by
  have hr := inv_getAccessTokenRefresh d s now env h
  unfold getAccessToken
  cases s.access_token with
  | none => exact hr
  | some tok =>
    dsimp only
    cases d tok with
    | none => exact hr
    | some exp =>
      dsimp only
      by_cases hc : exp > now
      · simp only [if_pos hc]
        exact h
      · simp only [if_neg hc]
        exact hr

lemma inv_register (d : String → Option Int) (s : AuthState) (linkCode deviceId : String)
    (regEnv : NetOutcome) (now : Int) (refreshEnv : NetOutcome) (h : Inv s) :
    Inv (register d s linkCode deviceId regEnv now refreshEnv).state := by
  have h1 : Inv { s with device_id := some deviceId } := h
  unfold register
  cases regEnv with
  | transportFail => exact h1
  | httpError code => exact h1
  | ok body =>
    by_cases hb : body = ""
    · simp only [if_pos hb]
      exact h1
    · simp only [if_neg hb]
      have h2 : Inv { s with device_id := some deviceId, refresh_token := some body } :=
        ⟨Or.inr rfl, h1.2⟩
      have hcrs := inv_checkRegisteredStatus d
        { s with device_id := some deviceId, refresh_token := some body } now refreshEnv h2
      rcases hc : checkRegisteredStatus d
          { s with device_id := some deviceId, refresh_token := some body } now refreshEnv
        with ⟨res, st, n⟩
      rw [hc] at hcrs
      rcases res with e | b
      · exact hcrs
      · cases b <;> exact hcrs

/-- A concrete JWT-decode oracle used by concrete instances below: the token
literal `"T100"` decodes to expiry 100, `"T0"` to expiry 0, anything else
fails to decode. -/
def demoDecode (tok : String) : Option Int :=
  if tok = "T100" then some 100 else if tok = "T0" then some 0 else none

/-- A registered account state with no cached and no persisted access token:
`device_id` and `refresh_token` are set, both access-token slots empty. -/
def cexState : AuthState :=
  { device_id := some "dev-1", refresh_token := some "RT1",
    stored_access_token := none, access_token := none }

/-- A registered account state holding the unexpired token `"T100"` both in
storage and in the in-memory cache. -/
def wState : AuthState :=
  { device_id := some "dev-1", refresh_token := some "RT1",
    stored_access_token := some "T100", access_token := some "T100" }

lemma checkRefresh_ok_true (s : AuthState) (env : NetOutcome) :
    (checkRefresh s env).result = Except.ok true →
    ∃ body, env = NetOutcome.ok body ∧ body ≠ "" ∧
      (checkRefresh s env).state.access_token = some body ∧
      (checkRefresh s env).refreshCalls = 1 := by
  unfold checkRefresh
  cases s.refresh_token with
  | none => intro h; exact absurd h (by simp)
  | some rt =>
    dsimp only
    cases env with
    | ok body =>
      dsimp only
      by_cases hb : body = ""
      · rw [if_pos hb]; intro h; exact absurd h (by simp)
      · rw [if_neg hb]; intro _h; exact ⟨body, rfl, hb, rfl, rfl⟩
    | httpError code => intro h; exact absurd h (by simp)
    | transportFail => intro h; exact absurd h (by simp)

lemma checkRegisteredStatus_ok_true (d : String → Option Int) (s : AuthState) (now : Int)
    (env : NetOutcome) :
    (checkRegisteredStatus d s now env).result = Except.ok true →
    (∃ tok, s.stored_access_token = some tok ∧ (∃ e, d tok = some e ∧ e > now) ∧
       (checkRegisteredStatus d s now env).state.access_token = some tok ∧
       (checkRegisteredStatus d s now env).refreshCalls = 0) ∨
    (∃ body, env = NetOutcome.ok body ∧ body ≠ "" ∧
       (checkRegisteredStatus d s now env).state.access_token = some body ∧
       (checkRegisteredStatus d s now env).refreshCalls = 1) := by
  unfold checkRegisteredStatus
  cases s.stored_access_token with
  | none =>
    intro h
    rcases checkRefresh_ok_true s env h with ⟨body, henv, hb, hacc, hn⟩
    exact Or.inr ⟨body, henv, hb, hacc, hn⟩
  | some tok =>
    dsimp only
    cases hd : d tok with
    | none =>
      intro h
      rcases checkRefresh_ok_true s env h with ⟨body, henv, hb, hacc, hn⟩
      exact Or.inr ⟨body, henv, hb, hacc, hn⟩
    | some exp =>
      dsimp only
      by_cases hc : exp > now
      · rw [if_pos hc]
        intro _h
        exact Or.inl ⟨tok, rfl, ⟨exp, hd, hc⟩, rfl, rfl⟩
      · rw [if_neg hc]
        intro h
        rcases checkRefresh_ok_true s env h with ⟨body, henv, hb, hacc, hn⟩
        exact Or.inr ⟨body, henv, hb, hacc, hn⟩

lemma getAccessTokenRefresh_unexpired_or_fresh (d : String → Option Int) (s : AuthState)
    (now : Int) (env : NetOutcome) (tok : String) :
    (getAccessTokenRefresh d s now env).result = Except.ok (some tok) →
    (∃ e, d tok = some e ∧ e > now) ∨
      (env = NetOutcome.ok tok ∧ (getAccessTokenRefresh d s now env).refreshCalls = 1) := by
  unfold getAccessTokenRefresh
  rcases hc : checkRegisteredStatus d s now env with ⟨res, st, n⟩
  rcases res with e | b
  · intro h; exact absurd h (by simp)
  · cases b with
    | false => intro h; exact absurd h (by simp)
    | true =>
      intro h
      have hacc : st.access_token = some tok := by simpa using h
      have hok := checkRegisteredStatus_ok_true d s now env (by rw [hc])
      rcases hok with ⟨tk, _hsa, ⟨e, hde, hce⟩, hacc2, _hn⟩ | ⟨body, henv, _hb, hacc2, hn2⟩
      · rw [hc] at hacc2
        have : tk = tok := by
          have := hacc2.symm.trans hacc
          exact Option.some.inj this
        subst this
        exact Or.inl ⟨e, hde, hce⟩
      · rw [hc] at hacc2 hn2
        have : body = tok := by
          have := hacc2.symm.trans hacc
          exact Option.some.inj this
        subst this
        exact Or.inr ⟨henv, hn2⟩

/-- Claim C1 counterexample: for the registered state `cexState` at call time
100, with the upstream refresh endpoint answering 200 with body `"T0"` (a
token whose embedded expiry decodes to 0), `getAccessToken` returns that
token even though its expiry (0) is not strictly greater than the call time
(100) — a credential just obtained from a refresh is returned without any
expiry check. -/
theorem getAccessToken_returns_expired_refreshed_token :
    isRegistered cexState = true ∧
    (getAccessToken demoDecode cexState 100 (NetOutcome.ok "T0")).result
      = Except.ok (some "T0") ∧
    demoDecode "T0" = some 0 ∧ ¬ ((0 : Int) > 100) :=
  ⟨rfl, rfl, rfl, by decide⟩

/-- Claim C1 (amended): any token returned by `getAccessToken` either has a
decoded expiry strictly greater than the call time (the cached and
storage-served cases), or is exactly the body just obtained from the single
refresh request to the upstream token endpoint, returned without an expiry
check. -/
theorem getAccessToken_unexpired_or_fresh (d : String → Option Int) (s : AuthState)
    (now : Int) (env : NetOutcome) (tok : String) :
    (getAccessToken d s now env).result = Except.ok (some tok) →
    (∃ e, d tok = some e ∧ e > now) ∨
      (env = NetOutcome.ok tok ∧ (getAccessToken d s now env).refreshCalls = 1) := by
  unfold getAccessToken
  cases s.access_token with
  | none => exact getAccessTokenRefresh_unexpired_or_fresh d s now env tok
  | some tok0 =>
    dsimp only
    cases hd : d tok0 with
    | none => exact getAccessTokenRefresh_unexpired_or_fresh d s now env tok
    | some exp =>
      dsimp only
      by_cases hc : exp > now
      · rw [if_pos hc]
        intro h
        have : tok0 = tok := Option.some.inj (by simpa using h)
        subst this
        exact Or.inl ⟨exp, hd, hc⟩
      · rw [if_neg hc]
        exact getAccessTokenRefresh_unexpired_or_fresh d s now env tok

/-- Witness for the amended claim C1 at a concrete input: the cached token
`"T100"` is returned at call time 50 and its decoded expiry 100 is strictly
greater than 50. -/
theorem getAccessToken_unexpired_or_fresh_witness :
    (getAccessToken demoDecode wState 50 (NetOutcome.ok "X")).result
      = Except.ok (some "T100") ∧
    ((∃ e, demoDecode "T100" = some e ∧ e > 50) ∨
      (NetOutcome.ok "X" = NetOutcome.ok "T100" ∧
        (getAccessToken demoDecode wState 50 (NetOutcome.ok "X")).refreshCalls = 1)) :=
  ⟨rfl, getAccessToken_unexpired_or_fresh demoDecode wState 50 (NetOutcome.ok "X") "T100" rfl⟩

/-- Claim C2 counterexample: for the registered state `cexState` (no valid
access token, a refresh credential present), a transport failure of the
refresh `fetch` propagates out of `getAccessToken` as an exception — the
function does not signal that failure by returning absent. -/
theorem getAccessToken_raises_on_transport_failure :
    (getAccessToken demoDecode cexState 100 NetOutcome.transportFail).result
      = Except.error () :=
  rfl

lemma checkRefresh_no_raise (s : AuthState) (env : NetOutcome)
    (h : env ≠ NetOutcome.transportFail) :
    ∃ b, (checkRefresh s env).result = Except.ok b := by
  unfold checkRefresh
  cases s.refresh_token with
  | none => exact ⟨false, rfl⟩
  | some rt =>
    dsimp only
    cases env with
    | ok body =>
      dsimp only
      by_cases hb : body = ""
      · exact ⟨false, by rw [if_pos hb]⟩
      · exact ⟨true, by rw [if_neg hb]⟩
    | httpError code => exact ⟨false, rfl⟩
    | transportFail => exact absurd rfl h

lemma checkRegisteredStatus_no_raise (d : String → Option Int) (s : AuthState) (now : Int)
    (env : NetOutcome) (h : env ≠ NetOutcome.transportFail) :
    ∃ b, (checkRegisteredStatus d s now env).result = Except.ok b := by
  unfold checkRegisteredStatus
  cases s.stored_access_token with
  | none => exact checkRefresh_no_raise s env h
  | some tok =>
    dsimp only
    cases d tok with
    | none => exact checkRefresh_no_raise s env h
    | some exp =>
      dsimp only
      by_cases hc : exp > now
      · exact ⟨true, by rw [if_pos hc]⟩
      · rw [if_neg hc]
        exact checkRefresh_no_raise s env h

lemma getAccessTokenRefresh_no_raise (d : String → Option Int) (s : AuthState) (now : Int)
    (env : NetOutcome) (h : env ≠ NetOutcome.transportFail) :
    ∃ v, (getAccessTokenRefresh d s now env).result = Except.ok v := by
  obtain ⟨b, hb⟩ := checkRegisteredStatus_no_raise d s now env h
  unfold getAccessTokenRefresh
  rcases hc : checkRegisteredStatus d s now env with ⟨res, st, n⟩
  rw [hc] at hb
  cases res with
  | error e => exact absurd hb (by simp)
  | ok bb => cases bb <;> exact ⟨_, rfl⟩

/-- Claim C2 (amended): `getAccessToken` never raises for expected absence —
missing, expired or undecodable tokens, a missing refresh credential, a
non-success refresh response, an empty refresh body all yield a normal
return — but a transport failure of the refresh network call propagates as
an exception; absent that, the call always returns normally. -/
theorem getAccessToken_no_raise_without_transport_failure (d : String → Option Int)
    (s : AuthState) (now : Int) (env : NetOutcome)
    (h : env ≠ NetOutcome.transportFail) :
    ∃ v, (getAccessToken d s now env).result = Except.ok v := by
  unfold getAccessToken
  cases s.access_token with
  | none => exact getAccessTokenRefresh_no_raise d s now env h
  | some tok =>
    dsimp only
    cases d tok with
    | none => exact getAccessTokenRefresh_no_raise d s now env h
    | some exp =>
      dsimp only
      by_cases hc : exp > now
      · exact ⟨some tok, by rw [if_pos hc]⟩
      · rw [if_neg hc]
        exact getAccessTokenRefresh_no_raise d s now env h

/-- Witness for the amended claim C2 at a concrete input: with a 200 refresh
response the call returns normally. -/
theorem getAccessToken_no_raise_witness :
    NetOutcome.ok "T0" ≠ NetOutcome.transportFail ∧
    ∃ v, (getAccessToken demoDecode cexState 100 (NetOutcome.ok "T0")).result
      = Except.ok v :=
  ⟨by decide,
   getAccessToken_no_raise_without_transport_failure demoDecode cexState 100
     (NetOutcome.ok "T0") (by decide)⟩

lemma checkRefresh_preserves_refresh_token (s : AuthState) (env : NetOutcome) :
    (checkRefresh s env).state.refresh_token = s.refresh_token := by
  unfold checkRefresh
  cases hrt : s.refresh_token with
  | none => rfl
  | some rt =>
    dsimp only
    cases env with
    | ok body =>
      dsimp only
      by_cases hb : body = ""
      · rw [if_pos hb]
      · rw [if_neg hb]
    | httpError code => rfl
    | transportFail => exact hrt

lemma checkRegisteredStatus_preserves_refresh_token (d : String → Option Int) (s : AuthState)
    (now : Int) (env : NetOutcome) :
    (checkRegisteredStatus d s now env).state.refresh_token = s.refresh_token := by
  unfold checkRegisteredStatus
  cases s.stored_access_token with
  | none => exact checkRefresh_preserves_refresh_token s env
  | some tok =>
    dsimp only
    cases d tok with
    | none => exact checkRefresh_preserves_refresh_token s env
    | some exp =>
      dsimp only
      by_cases hc : exp > now
      · rw [if_pos hc]
      · rw [if_neg hc]
        exact checkRefresh_preserves_refresh_token s env

lemma getAccessTokenRefresh_preserves_refresh_token (d : String → Option Int) (s : AuthState)
    (now : Int) (env : NetOutcome) :
    (getAccessTokenRefresh d s now env).state.refresh_token = s.refresh_token := by
  have hp := checkRegisteredStatus_preserves_refresh_token d s now env
  unfold getAccessTokenRefresh
  rcases hc : checkRegisteredStatus d s now env with ⟨res, st, n⟩
  rw [hc] at hp
  rcases res with e | b
  · exact hp
  · cases b <;> exact hp

lemma getAccessToken_preserves_refresh_token (d : String → Option Int) (s : AuthState)
    (now : Int) (env : NetOutcome) :
    (getAccessToken d s now env).state.refresh_token = s.refresh_token := by
  unfold getAccessToken
  cases s.access_token with
  | none => exact getAccessTokenRefresh_preserves_refresh_token d s now env
  | some tok =>
    dsimp only
    cases d tok with
    | none => exact getAccessTokenRefresh_preserves_refresh_token d s now env
    | some exp =>
      dsimp only
      by_cases hc : exp > now
      · rw [if_pos hc]
      · rw [if_neg hc]
        exact getAccessTokenRefresh_preserves_refresh_token d s now env

/-- Claim C9: a refresh cycle never changes the persisted refresh credential,
whatever the upstream token endpoint does — a 200 response, an empty body, a
non-success status, or a transport failure alike (in particular every failed
refresh leaves it unchanged, so a failed refresh never deregisters the
device); only `destroy` removes it. -/
theorem failed_refresh_preserves_refresh_token (d : String → Option Int) (s : AuthState)
    (now : Int) (env : NetOutcome) :
    (checkRegisteredStatus d s now env).state.refresh_token = s.refresh_token ∧
    (getAccessToken d s now env).state.refresh_token = s.refresh_token ∧
    (destroy s).refresh_token = none :=
  ⟨checkRegisteredStatus_preserves_refresh_token d s now env,
   getAccessToken_preserves_refresh_token d s now env, rfl⟩

/-- Claim C10: from any prior state, after `destroy` the instance reports not
registered, and `getAccessToken` returns absent (normally, with no refresh
request) at every call time and under every upstream behavior. -/
theorem destroy_unregisters_and_absents_token (d : String → Option Int) (s : AuthState)
    (now : Int) (env : NetOutcome) :
    isRegistered (destroy s) = false ∧
    (getAccessToken d (destroy s) now env).result = Except.ok none ∧
    (getAccessToken d (destroy s) now env).refreshCalls = 0 :=
  ⟨rfl, rfl, rfl⟩

/-- Claim C6: when the registration endpoint answers with a non-200 status or
with an empty body (the invalid-link-code cases), `register` returns an
`AuthError` and the persisted refresh credential is exactly what it was
before the call (for a fresh account: still absent) — while `device_id` has
already been persisted and is not rolled back. -/
theorem register_failure_all_or_nothing (d : String → Option Int) (s : AuthState)
    (linkCode deviceId : String) (regEnv : NetOutcome) (now : Int) (refreshEnv : NetOutcome)
    (h : (∃ code, regEnv = NetOutcome.httpError code) ∨ regEnv = NetOutcome.ok "") :
    (register d s linkCode deviceId regEnv now refreshEnv).state.refresh_token
      = s.refresh_token ∧
    (register d s linkCode deviceId regEnv now refreshEnv).state.device_id = some deviceId ∧
    ∃ msg, (register d s linkCode deviceId regEnv now refreshEnv).result
      = Except.ok (RegisterOutcome.authError msg) := by
  rcases h with ⟨code, rfl⟩ | rfl
  · exact ⟨rfl, rfl, ⟨_, rfl⟩⟩
  · exact ⟨rfl, rfl, ⟨_, rfl⟩⟩

/-- Witness for claim C6 at a concrete input: a 400 registration response on
a fresh instance leaves no refresh credential but keeps the device id. -/
theorem register_failure_all_or_nothing_witness :
    ((∃ code, NetOutcome.httpError 400 = NetOutcome.httpError code) ∨
      NetOutcome.httpError 400 = NetOutcome.ok "") ∧
    ((register demoDecode initState "ABC123" "dev-1" (NetOutcome.httpError 400) 0
        NetOutcome.transportFail).state.refresh_token = initState.refresh_token ∧
     (register demoDecode initState "ABC123" "dev-1" (NetOutcome.httpError 400) 0
        NetOutcome.transportFail).state.device_id = some "dev-1" ∧
     ∃ msg, (register demoDecode initState "ABC123" "dev-1" (NetOutcome.httpError 400) 0
        NetOutcome.transportFail).result = Except.ok (RegisterOutcome.authError msg)) :=
  ⟨Or.inl ⟨400, rfl⟩,
   register_failure_all_or_nothing demoDecode initState "ABC123" "dev-1"
     (NetOutcome.httpError 400) 0 NetOutcome.transportFail (Or.inl ⟨400, rfl⟩)⟩

lemma getAccessTokenRefresh_one_call (d : String → Option Int) (s : AuthState)
    (now : Int) (env : NetOutcome) (tok : String) (E : Int)
    (hsa : s.stored_access_token = some tok) (hexp : d tok = some E) (hc : ¬ E > now)
    (rt : String) (hrt : s.refresh_token = some rt) :
    (getAccessTokenRefresh d s now env).refreshCalls = 1 := by
  have hcrs : (checkRegisteredStatus d s now env).refreshCalls = 1 := by
    unfold checkRegisteredStatus
    rw [hsa]
    dsimp only
    rw [hexp]
    dsimp only
    rw [if_neg hc]
    unfold checkRefresh
    rw [hrt]
    dsimp only
    cases env with
    | ok body =>
      dsimp only
      by_cases hb : body = ""
      · rw [if_pos hb]
      · rw [if_neg hb]
    | httpError code => rfl
    | transportFail => rfl
  unfold getAccessTokenRefresh
  rcases hcr : checkRegisteredStatus d s now env with ⟨res, st, n⟩
  rw [hcr] at hcrs
  rcases res with e | b
  · exact hcrs
  · cases b <;> exact hcrs

/-- Claim C7: for any reachable state (`Inv` holds of every state the
operations produce — see the `inv_` lemmas) in which the token `tok` with
decoded expiry `E` is cached in memory, `getAccessToken` at call time
`now < E` is the identity on the state, returns the cached token and issues
no network request; at `now ≥ E` it issues exactly one refresh request to the
upstream token endpoint. -/
theorem cached_token_refresh_call_counts (d : String → Option Int) (s : AuthState)
    (now E : Int) (tok : String) (env : NetOutcome)
    (hinv : Inv s) (hmem : s.access_token = some tok) (hexp : d tok = some E) :
    if E > now then
      getAccessToken d s now env
        = { result := Except.ok (some tok), state := s, refreshCalls := 0 }
    else
      (getAccessToken d s now env).refreshCalls = 1 := by
  have hsa : s.stored_access_token = some tok := by
    rcases hinv.2 with h2 | h2
    · rw [hmem] at h2; exact absurd h2 (by simp)
    · rw [hmem] at h2; exact h2.symm
  have hrt : ∃ rt, s.refresh_token = some rt := by
    rcases hinv.1 with h1 | h1
    · rw [hsa] at h1; exact absurd h1 (by simp)
    · exact Option.isSome_iff_exists.mp h1
  by_cases hc : E > now
  · rw [if_pos hc]
    unfold getAccessToken
    rw [hmem]
    dsimp only
    rw [hexp]
    dsimp only
    rw [if_pos hc]
  · rw [if_neg hc]
    obtain ⟨rt, hrt⟩ := hrt
    have hone := getAccessTokenRefresh_one_call d s now env tok E hsa hexp hc rt hrt
    unfold getAccessToken
    rw [hmem]
    dsimp only
    rw [hexp]
    dsimp only
    rw [if_neg hc]
    exact hone

/-- Witness for claim C7 at a concrete input: with `"T100"` cached (expiry
100) and call time 50, `getAccessToken` returns it untouched with zero
refresh requests. -/
theorem cached_token_refresh_call_counts_witness :
    Inv wState ∧ wState.access_token = some "T100" ∧ demoDecode "T100" = some 100 ∧
    (if (100 : Int) > 50 then
      getAccessToken demoDecode wState 50 (NetOutcome.httpError 500)
        = { result := Except.ok (some "T100"), state := wState, refreshCalls := 0 }
    else
      (getAccessToken demoDecode wState 50 (NetOutcome.httpError 500)).refreshCalls = 1) :=
  ⟨by decide, rfl, rfl,
   cached_token_refresh_call_counts demoDecode wState 50 100 "T100"
     (NetOutcome.httpError 500) (by decide) rfl rfl⟩

/-- Metadata of a staged blob as the workflow steps see it (R2 object size
and HTTP content type). -/
structure FileRecord where
  size : Nat
  contentType : Option String
deriving Repr, DecidableEq

/-- Outcome of the POST to the upstream document endpoint; `success` is a
`response.ok` (2xx) response, `failure` a non-2xx status with the captured
error body, `transportFail` a rejected `fetch` promise. -/
inductive ApiOutcome where
  | success
  | failure (status : Nat) (body : String)
  | transportFail
deriving Repr, DecidableEq

/-- The error with which a workflow run aborts (the error thrown out of the
failing step after its own retry policy is exhausted). -/
inductive WorkflowError where
  | fileNotFound (fileId : String)
  | noAccessToken
  | apiError (status : Nat) (body : String)
  | apiTransportFailure
  | deleteFailed
deriving Repr, DecidableEq

/-- Environment of one workflow run: what each externally-effectful step
observes — the blob lookup at the retrieve step, the token obtained from the
`AuthDO` (absent when `getAccessToken` returned null), the blob lookup
repeated at the upload step, the upstream API response, and whether the R2
delete in the cleanup step succeeds. -/
structure WfEnv where
  blobAtRetrieve : Option FileRecord
  tokenResult : Option String
  blobAtUpload : Option FileRecord
  apiResponse : ApiOutcome
  deleteOk : Bool
deriving Repr, DecidableEq

/-- `RemarkableUploadWorkflow.run` (workflow.ts lines 16-122), modelled at
the level of each step's final outcome (a step that throws fails the run):
retrieve the blob info (throw if missing), get an access token (throw if
null), re-read the blob and POST it upstream (throw on a non-ok response),
sleep 24 hours, then delete the blob — the cleanup catch block logs the
delete error and rethrows it (`throw error`, workflow.ts line 115), so a
failed delete makes the cleanup step, and with it the run, fail. -/
def runWorkflow (fileId : String) (e : WfEnv) : Except WorkflowError Unit :=
  match e.blobAtRetrieve with
  | none => Except.error (WorkflowError.fileNotFound fileId)
  | some _info =>
    match e.tokenResult with
    | none => Except.error WorkflowError.noAccessToken
    | some _tk =>
      match e.blobAtUpload with
      | none => Except.error (WorkflowError.fileNotFound fileId)
      | some _f =>
        match e.apiResponse with
        | ApiOutcome.failure status body => Except.error (WorkflowError.apiError status body)
        | ApiOutcome.transportFail => Except.error WorkflowError.apiTransportFailure
        | ApiOutcome.success =>
          if e.deleteOk then Except.ok () else Except.error WorkflowError.deleteFailed

/-- A workflow environment in which every step up to and including the
upstream upload succeeds and only the final R2 delete fails. -/
def deleteFailEnv : WfEnv :=
  { blobAtRetrieve := some { size := 10, contentType := some "application/pdf" },
    tokenResult := some "T100",
    blobAtUpload := some { size := 10, contentType := some "application/pdf" },
    apiResponse := ApiOutcome.success,
    deleteOk := false }

/-- Claim C3 counterexample: in `deleteFailEnv` every step before cleanup
succeeds, the blob delete fails, and the run aborts with `deleteFailed`
instead of completing — the rethrown delete error is fatal to the job's
completion status. -/
theorem workflow_delete_failure_not_complete :
    runWorkflow "file-1" deleteFailEnv = Except.error WorkflowError.deleteFailed ∧
    runWorkflow "file-1" deleteFailEnv ≠ Except.ok () :=
  ⟨rfl, by simp [runWorkflow, deleteFailEnv]⟩

/-- Claim C3 (amended): for every job that reaches the cleanup step, a failed
blob delete is logged and rethrown, so the cleanup step fails and the job
aborts with `deleteFailed` rather than being considered complete. -/
theorem workflow_delete_failure_aborts_run (fileId : String) (e : WfEnv)
    (h1 : e.blobAtRetrieve.isSome) (h2 : e.tokenResult.isSome)
    (h3 : e.blobAtUpload.isSome) (h4 : e.apiResponse = ApiOutcome.success)
    (h5 : e.deleteOk = false) :
    runWorkflow fileId e = Except.error WorkflowError.deleteFailed := by
  unfold runWorkflow
  obtain ⟨b1, hb1⟩ := Option.isSome_iff_exists.mp h1
  obtain ⟨t, ht⟩ := Option.isSome_iff_exists.mp h2
  obtain ⟨b2, hb2⟩ := Option.isSome_iff_exists.mp h3
  rw [hb1, ht, hb2, h4, h5]
  rfl

/-- Witness for the amended claim C3 at the concrete environment
`deleteFailEnv`. -/
theorem workflow_delete_failure_aborts_run_witness :
    deleteFailEnv.blobAtRetrieve.isSome = true ∧ deleteFailEnv.tokenResult.isSome = true ∧
    deleteFailEnv.blobAtUpload.isSome = true ∧
    deleteFailEnv.apiResponse = ApiOutcome.success ∧ deleteFailEnv.deleteOk = false ∧
    runWorkflow "file-1" deleteFailEnv = Except.error WorkflowError.deleteFailed :=
  ⟨rfl, rfl, rfl, rfl, rfl,
   workflow_delete_failure_aborts_run "file-1" deleteFailEnv rfl rfl rfl rfl rfl⟩

/-- JavaScript `a || dflt` on an optional string: `undefined` and the empty
string are falsy and select the fallback. -/
def jsOrDefault (a : Option String) (dflt : String) : String :=
  match a with
  | some s => if s = "" then dflt else s
  | none => dflt

/-- One object as `uploadFile` stores it in R2: the key and the
`httpMetadata`/`customMetadata` fields of the put. -/
structure StoredBlob where
  key : String
  contentType : String
  contentDisposition : String
  originalFileName : String
  uploadedBy : String
  authDoId : String
deriving Repr, DecidableEq

/-- The `WorkflowParams` payload submitted to the workflow engine. -/
structure WorkflowParams where
  email : Option String
  fileId : String
  fileName : String
  authDoId : String
deriving Repr, DecidableEq

/-- The outcome of one `uploadFile` call: the returned `{fileId, workflowId}`
pair (or the thrown error message), the R2 objects it stored and the
workflow instances it created. -/
structure UploadCallResult where
  result : Except String (String × String)
  stored : List StoredBlob
  workflows : List WorkflowParams
deriving Repr

/-- `uploadFile` (upload-utils.ts lines 13-79): ask the account's `AuthDO`
whether it `isRegistered`; if not, throw `"Device not registered or
authentication expired"` before storing anything; otherwise store the file
under a fresh id (`fileId` stands for the generated UUID) with content-type,
content-disposition and metadata, create one workflow instance with
`{fileId, fileName, authDoId}` plus the optional requester email, and return
the file id and workflow id. -/
def uploadFile (s : AuthState) (fileName fileType authDoId : String)
    (email : Option String) (fileId workflowId : String) : UploadCallResult :=
  if isRegistered s then
    { result := Except.ok (fileId, workflowId),
      stored := [{ key := fileId, contentType := fileType,
                   contentDisposition := "attachment; filename=\"" ++ fileName ++ "\"",
                   originalFileName := fileName,
                   uploadedBy := jsOrDefault email "web-upload",
                   authDoId := authDoId }],
      workflows := [{ email := email, fileId := fileId, fileName := fileName,
                      authDoId := authDoId }] }
  else
    { result := Except.error "Device not registered or authentication expired",
      stored := [], workflows := [] }

/-- Claim C8: for every account state that is not registered, `uploadFile`
throws the not-registered error immediately, stores no blob and submits no
workflow. -/
theorem uploadFile_unregistered_stages_nothing (s : AuthState)
    (fileName fileType authDoId : String) (email : Option String)
    (fileId workflowId : String) (h : isRegistered s = false) :
    (uploadFile s fileName fileType authDoId email fileId workflowId).result
      = Except.error "Device not registered or authentication expired" ∧
    (uploadFile s fileName fileType authDoId email fileId workflowId).stored = [] ∧
    (uploadFile s fileName fileType authDoId email fileId workflowId).workflows = [] := by
  unfold uploadFile
  rw [h]
  exact ⟨rfl, rfl, rfl⟩

/-- Witness for claim C8 at a concrete input: a 10-byte file for the fresh
(unregistered) state is rejected with nothing staged. -/
theorem uploadFile_unregistered_stages_nothing_witness :
    isRegistered initState = false ∧
    ((uploadFile initState "doc.pdf" "application/pdf" "acct-1" none "f-1" "wf-1").result
      = Except.error "Device not registered or authentication expired" ∧
    (uploadFile initState "doc.pdf" "application/pdf" "acct-1" none "f-1" "wf-1").stored = [] ∧
    (uploadFile initState "doc.pdf" "application/pdf" "acct-1" none "f-1" "wf-1").workflows
      = []) :=
  ⟨rfl, uploadFile_unregistered_stages_nothing initState "doc.pdf" "application/pdf" "acct-1"
    none "f-1" "wf-1" rfl⟩

/-- A JSON response body of the `/register` route: either `{error}` (the
`details` field of the 500 body is elided) or `{success, authId}` (the
informational `message` field is elided). -/
inductive RouteBody where
  | errorBody (error : String)
  | successBody (authId : String)
deriving Repr, DecidableEq

/-- An HTTP response of the `/register` route: status code and JSON body. -/
structure RouteResponse where
  status : Nat
  body : RouteBody
deriving Repr, DecidableEq

/-- The `POST /register` Hono handler (worker entry file): return 403
`{error}` when `SIGNUP_DISABLED` is not the string `"false"`; inside the try
block parse the JSON request (`reqJson` is `Except.error` when `req.json()`
throws, `Except.ok none` when the `linkCode` field is absent), answer 400
`{error}` when `!linkCode` (absent or empty string); call
`AuthDO.register` (`regCall`; `Except.error` when the call throws), mapping
`{success: true}` to 200 `{success, authId}` and a returned failure to 400
`{error}`; any throw reaches the catch block and yields 500 `{error}`. -/
def registerRoute (signupDisabledFlag : String) (reqJson : Except Unit (Option String))
    (authDoId : String) (regCall : Except Unit RegisterOutcome) : RouteResponse :=
  if signupDisabledFlag ≠ "false" then
    { status := 403, body := RouteBody.errorBody "Signup is currently disabled" }
  else
    match reqJson with
    | Except.error _ => { status := 500, body := RouteBody.errorBody "Registration failed" }
    | Except.ok linkCode =>
      match linkCode with
      | none => { status := 400, body := RouteBody.errorBody "Link code is required" }
      | some code =>
        if code = "" then
          { status := 400, body := RouteBody.errorBody "Link code is required" }
        else
          match regCall with
          | Except.error _ =>
            { status := 500, body := RouteBody.errorBody "Registration failed" }
          | Except.ok (RegisterOutcome.success _dev) =>
            { status := 200, body := RouteBody.successBody authDoId }
          | Except.ok (RegisterOutcome.authError msg) =>
            { status := 400, body := RouteBody.errorBody msg }

/-- Claim C4 counterexample: with signup disabled and a perfectly valid
request, the route answers a JSON `{error}` body with HTTP status 403 — not
400 as the claim states. -/
theorem register_route_disabled_is_403 :
    registerRoute "true" (Except.ok (some "ABC123")) "auth-1"
        (Except.ok (RegisterOutcome.success "dev-1"))
      = { status := 403, body := RouteBody.errorBody "Signup is currently disabled" } ∧
    (registerRoute "true" (Except.ok (some "ABC123")) "auth-1"
        (Except.ok (RegisterOutcome.success "dev-1"))).status ≠ 400 :=
  ⟨rfl, by decide⟩

/-- The request classes named by the amended claim C4 for `POST /register`. -/
inductive RegisterCase where
  | disabled
  | missingCode
  | unexpected
  | managerFailure (msg : String)
  | registered
deriving Repr, DecidableEq

/-- Modelled from the amended claim C4: the class a request falls in — signup
disabled; link code missing (absent field or empty string); unexpected
failure (a throw while parsing the body or while calling the account
manager); a registration failure reported by the manager; or a successful
registration. -/
def classifyRegister (signupDisabledFlag : String) (reqJson : Except Unit (Option String))
    (regCall : Except Unit RegisterOutcome) : RegisterCase :=
  if signupDisabledFlag ≠ "false" then RegisterCase.disabled
  else
    match reqJson with
    | Except.error _ => RegisterCase.unexpected
    | Except.ok linkCode =>
      match linkCode with
      | none => RegisterCase.missingCode
      | some code =>
        if code = "" then RegisterCase.missingCode
        else
          match regCall with
          | Except.error _ => RegisterCase.unexpected
          | Except.ok (RegisterOutcome.success _dev) => RegisterCase.registered
          | Except.ok (RegisterOutcome.authError msg) => RegisterCase.managerFailure msg

/-- Modelled from the amended claim C4: the response for each request class —
`{error}` with 403 when signup is disabled, `{error}` with 400 when the link
code is missing, 500 on unexpected failure, 400 with the manager's message on
a reported registration failure, and `{success, authId}` on success. -/
def registerResponseSpec (authDoId : String) : RegisterCase → RouteResponse
  | RegisterCase.disabled =>
    { status := 403, body := RouteBody.errorBody "Signup is currently disabled" }
  | RegisterCase.missingCode =>
    { status := 400, body := RouteBody.errorBody "Link code is required" }
  | RegisterCase.unexpected =>
    { status := 500, body := RouteBody.errorBody "Registration failed" }
  | RegisterCase.managerFailure msg => { status := 400, body := RouteBody.errorBody msg }
  | RegisterCase.registered => { status := 200, body := RouteBody.successBody authDoId }

/-- Claim C4 (amended): for every `POST /register` request the route answers
exactly the response the amended sentence assigns to its class: 403 `{error}`
when signup is disabled, 400 `{error}` when the linkCode field is missing or
empty, 500 `{error}` on an unexpected failure, 400 `{error}` on a
manager-reported registration failure, and `{success, authId}` on success. -/
theorem register_route_matches_amended_spec (signupDisabledFlag : String)
    (reqJson : Except Unit (Option String)) (authDoId : String)
    (regCall : Except Unit RegisterOutcome) :
    registerRoute signupDisabledFlag reqJson authDoId regCall
      = registerResponseSpec authDoId (classifyRegister signupDisabledFlag reqJson regCall) := by
  unfold registerRoute classifyRegister
  by_cases hf : signupDisabledFlag ≠ "false"
  · rw [if_pos hf, if_pos hf]
    rfl
  · rw [if_neg hf, if_neg hf]
    cases reqJson with
    | error e => rfl
    | ok linkCode =>
      dsimp only
      cases linkCode with
      | none => rfl
      | some code =>
        dsimp only
        by_cases hcode : code = ""
        · rw [if_pos hcode, if_pos hcode]
          rfl
        · rw [if_neg hcode, if_neg hcode]
          cases regCall with
          | error e => rfl
          | ok r => cases r <;> rfl

/-- An attachment of a parsed inbound email (postal-mime shape). -/
structure Attachment where
  filename : Option String
  mimeType : Option String
  content : String
deriving Repr, DecidableEq

/-- An address record of a parsed inbound email; `address` may be absent. -/
structure Address where
  address : Option String
deriving Repr, DecidableEq

/-- A parsed inbound email as the worker's `email` handler consumes it
(`from` and `to` are named `from_addr` and `to_addrs` because both are
reserved words in Lean). -/
structure Email where
  from_addr : Address
  subject : Option String
  to_addrs : List Address
  attachments : List Attachment
deriving Repr, DecidableEq

/-- One staged upload the handler submits for an attachment: the account id,
the `File` name and type it builds, and the requester email passed to
`uploadFile`. -/
structure EmailUpload where
  authDoId : String
  fileName : String
  contentType : String
  requesterEmail : Option String
deriving Repr, DecidableEq

/-- Outcome of the inbound-email handler: the message was rejected with a
reason string, a JavaScript runtime error escaped the handler, or each
attachment was staged and submitted. -/
inductive EmailOutcome where
  | rejected (reason : String)
  | runtimeError (msg : String)
  | processed (uploads : List EmailUpload)
deriving Repr, DecidableEq

/-- The worker's `email` handler as written (worker entry file, lines
163-198): reject when there is no attachment; reject when there is no `to`
address; then the line `const authDoId = toAddress.address?.split('@')[0]`
reads the variable `toAddress`, which is declared nowhere in the file, so
execution throws `ReferenceError: toAddress is not defined` before any
attachment is processed. -/
def emailHandler (em : Email) : EmailOutcome :=
  if em.attachments.isEmpty then
    EmailOutcome.rejected "Email must contain at least one attachment"
  else if em.to_addrs.isEmpty then
    EmailOutcome.rejected "Email must have a \x27to\x27 address"
  else
    EmailOutcome.runtimeError "ReferenceError: toAddress is not defined"

/-- JavaScript `s.split('@')[0]`: the prefix of `s` before the first `'@'`
(the whole string when there is none). -/
def localPart (s : String) : String :=
  String.mk (s.data.takeWhile (fun c => c ≠ '@'))

/-- JavaScript `a || b || dflt` on optional strings (`undefined` and `""`
are falsy). -/
def jsOr3 (a b : Option String) (dflt : String) : String :=
  match a with
  | some s => if s = "" then jsOrDefault b dflt else s
  | none => jsOrDefault b dflt

/-- Modelled from the spec: the intended inbound-email behavior that the
handler's own comment describes and the undefined `toAddress` variable
prevents — take the local part of the (first) `to` address as the account
id, rejecting when it cannot be extracted, and for each attachment stage a
file named by subject/attachment-filename/default with the attachment's mime
type (or octet-stream), using the sender's address as the requester email. -/
def emailHandlerIntended (em : Email) : EmailOutcome :=
  if em.attachments.isEmpty then
    EmailOutcome.rejected "Email must contain at least one attachment"
  else if em.to_addrs.isEmpty then
    EmailOutcome.rejected "Email must have a \x27to\x27 address"
  else
    match em.to_addrs.head? with
    | none => EmailOutcome.rejected "Failed to extract authentication ID from email address"
    | some toAddress =>
      match toAddress.address with
      | none => EmailOutcome.rejected "Failed to extract authentication ID from email address"
      | some addr =>
        if localPart addr = "" then
          EmailOutcome.rejected "Failed to extract authentication ID from email address"
        else
          EmailOutcome.processed (em.attachments.map (fun a =>
            { authDoId := localPart addr,
              fileName := jsOr3 em.subject a.filename "send to remarkable upload",
              contentType := jsOrDefault a.mimeType "application/octet-stream",
              requesterEmail := em.from_addr.address }))

/-- A well-formed inbound email: one attachment, one `to` address with a
non-empty local part. -/
def cexEmail : Email :=
  { from_addr := { address := some "sender@example.com" },
    subject := some "Hello",
    to_addrs := [{ address := some "abc@send-to-remarkable.zegs.me" }],
    attachments := [{ filename := some "doc.pdf", mimeType := some "application/pdf",
                      content := "0123456789" }] }

/-- An email with a `to` address but no attachment. -/
def noAttachEmail : Email :=
  { from_addr := { address := some "sender@example.com" }, subject := some "Hello",
    to_addrs := [{ address := some "abc@send-to-remarkable.zegs.me" }], attachments := [] }

/-- An email with an attachment but no `to` address. -/
def noToEmail : Email :=
  { from_addr := { address := some "sender@example.com" }, subject := some "Hello",
    to_addrs := [],
    attachments := [{ filename := some "doc.pdf", mimeType := some "application/pdf",
                      content := "0123456789" }] }

/-- Claim C5 (code bug): the rejection halves of the claim hold — an email
without attachment, and one without a `to` address, are rejected with the
stated reasons — but on the well-formed email `cexEmail` the handler as
written throws `ReferenceError: toAddress is not defined` instead of staging
the attachment, while the intended behavior (the code's own comment, modelled
in `emailHandlerIntended`) would extract account id `"abc"` and submit one
upload with the sender as requester email. -/
theorem email_handler_reference_error :
    emailHandler noAttachEmail
      = EmailOutcome.rejected "Email must contain at least one attachment" ∧
    emailHandler noToEmail = EmailOutcome.rejected "Email must have a \x27to\x27 address" ∧
    emailHandler cexEmail
      = EmailOutcome.runtimeError "ReferenceError: toAddress is not defined" ∧
    emailHandlerIntended cexEmail
      = EmailOutcome.processed
          [{ authDoId := "abc", fileName := "Hello", contentType := "application/pdf",
             requesterEmail := some "sender@example.com" }] :=
  ⟨rfl, rfl, rfl, by decide⟩

end SendToRemarkable
